import Mathlib

/-!
Verification of the AdBlast AI backend (`app.py`): a Flask service that
generates ad-copy variations with GPT-4o and optional DALL-E 3 images.

Modelling conventions:
* Python strings are `List Char` (`Str`); Python slicing `s[:n]` is `List.take`,
  `str.strip()` is `pyStrip`, `str.startswith`/`endswith` are `pyStartsWith`/
  `pyEndsWith`.
* JSON values (the result of `json.loads` and the elements the code iterates
  over) are the inductive `Json`; Python dicts holding ad fields are
  association lists `Dict := List (Str × Json)` with insertion-order
  semantics (`dictGet`, `dictSet`, `dictRemove`).
* The two external OpenAI calls are oracles passed as parameters: the chat
  completion is an `Except Str Str` (communication failure or raw response
  text) and the image API is a function `Str → Except Str Str` from the full
  prompt to a URL or an error.
* Python exceptions are explicit: `PyErr` for `AttributeError`/`TypeError`/
  `KeyError` raised while handling parsed values, `CopyErr` for the
  `ValueError`/generic `Exception` re-raised by `generate_ads_with_openai`.
* `json.loads` (a stdlib collaborator, not repository code) is modelled by
  the fueled recursive-descent `json_loads` below, deliberately at least as
  permissive as Python's parser on well-formed input (it accepts all strict
  JSON plus `NaN`/`Infinity`/`-Infinity`).
-/

/-- Python strings, modelled as lists of characters. -/
abbrev Str := List Char

/-- Characters removed by Python's default `str.strip()` (ASCII fragment). -/
def pyIsSpace : Char → Bool
  | ' ' | '\t' | '\n' | '\r' | '\x0b' | '\x0c' => true
  | _ => false

/-- Python `s.strip()`: drop whitespace from both ends. -/
def pyStrip (s : Str) : Str :=
  ((s.dropWhile pyIsSpace).reverse.dropWhile pyIsSpace).reverse

/-- Auxiliary: `isPre p s` is true when `p` is a leading segment of `s`. -/
def isPre : Str → Str → Bool
  | [], _ => true
  | _ :: _, [] => false
  | c :: p, d :: s => decide (c = d) && isPre p s

/-- Python `s.startswith(p)`. -/
def pyStartsWith (s p : Str) : Bool := isPre p s

/-- Python `s.endswith(p)`. -/
def pyEndsWith (s p : Str) : Bool := isPre p.reverse s.reverse

/-- JSON values, as produced by `json.loads`. Numbers keep their lexeme:
the code never uses a numeric value, only the fact that a number is neither
a dict nor iterable. -/
inductive Json where
  | null
  | bool (b : Bool)
  | num (lexeme : Str)
  | str (s : Str)
  | arr (elems : List Json)
  | obj (fields : List (Str × Json))

/-- Python dicts whose keys are strings and whose values are JSON-like
(ad drafts, parsed objects). Insertion order is the list order. -/
abbrev Dict := List (Str × Json)

/-- First (unique) binding of key `k`, like Python `d[k]` lookup. -/
def dictGet : Dict → Str → Option Json
  | [], _ => none
  | kv :: rest, k => if kv.1 = k then some kv.2 else dictGet rest k

/-- Python `d.get(k, dflt)`. -/
def dictGetD (d : Dict) (k : Str) (dflt : Json) : Json :=
  (dictGet d k).getD dflt

/-- Python `k in d`. -/
def dictHasKey (d : Dict) (k : Str) : Bool := (dictGet d k).isSome

/-- Python `d[k] = v`: update in place keeping the key's position, else
append at the end (dict insertion-order semantics). -/
def dictSet : Dict → Str → Json → Dict
  | [], k, v => [(k, v)]
  | kv :: rest, k, v => if kv.1 = k then (k, v) :: rest else kv :: dictSet rest k v

/-- Remove every binding of `k` (keys are unique in all dicts the code
builds, so this is Python `del d[k]` when the key is present). -/
def dictRemove : Dict → Str → Dict
  | [], _ => []
  | kv :: rest, k => if kv.1 = k then dictRemove rest k else kv :: dictRemove rest k

/-- Keys of a dict in insertion order, like `list(d.keys())`. -/
def dictKeys (d : Dict) : List Str := d.map Prod.fst

/-- Python exceptions raised while handling parsed values. -/
inductive PyErr where
  | attributeError (msg : Str)
  | typeError (msg : Str)
  | keyError (msg : Str)
deriving DecidableEq

/-- Python `str(e)` on the modelled exceptions. -/
def PyErr.text : PyErr → Str
  | .attributeError m => m
  | .typeError m => m
  | .keyError m => m

/-- Python type name of a JSON value (for exception messages). -/
def jTypeName : Json → Str
  | .null => "NoneType".data
  | .bool _ => "bool".data
  | .num lex =>
      if lex.any (fun c => decide (c = '.') || decide (c = 'e') || decide (c = 'E')
          || decide (c = 'N') || decide (c = 'I')) then "float".data else "int".data
  | .str _ => "str".data
  | .arr _ => "list".data
  | .obj _ => "dict".data

/-- Message of the `AttributeError` raised by `x.get(...)` on a non-dict. -/
def noGetMsg (ty : Str) : Str :=
  "\x27".data ++ ty ++ "\x27 object has no attribute \x27get\x27".data

/-- Message of the `TypeError` raised by slicing a non-sliceable value. -/
def notSubscriptableMsg (ty : Str) : Str :=
  "\x27".data ++ ty ++ "\x27 object is not subscriptable".data

/-- Message of the `TypeError` raised by iterating a non-iterable value. -/
def notIterableMsg (ty : Str) : Str :=
  "\x27".data ++ ty ++ "\x27 object is not iterable".data

/-- Message of the `KeyError` raised by `del d[k]` on an absent key. -/
def keyErrorMsg (k : Str) : Str := "\x27".data ++ k ++ "\x27".data

/-- Key `"titulo"`. -/
def kTitulo : Str := "titulo".data

/-- Key `"descricao"`. -/
def kDescricao : Str := "descricao".data

/-- Key `"cta"`. -/
def kCta : Str := "cta".data

/-- Key `"image_prompt"`. -/
def kImagePrompt : Str := "image_prompt".data

/-- Key `"image_url"`. -/
def kImageUrl : Str := "image_url".data

/-- The `CHAR_LIMITS` dict of `app.py` (lines 23-27), as a lookup. -/
def CHAR_LIMITS (k : Str) : Nat :=
  if k = kTitulo then 40 else if k = kDescricao then 250 else if k = kCta then 20 else 0

/-- Python `v[:n]` as used on ad field values: succeeds on text, raises
`TypeError` otherwise (the ad fields are text; the service's data model
never slices non-text values on the paths the claims cover). -/
def pySlice (v : Json) (n : Nat) : Except PyErr Str :=
  match v with
  | .str s => .ok (s.take n)
  | other => .error (.typeError (notSubscriptableMsg (jTypeName other)))

/-- Loop body of `validate_and_truncate_ads` (`app.py` lines 66-73): build
the validated dict from one element of the parsed list, with
`ad.get(key, "")[:limit]` per field; a non-dict element raises
`AttributeError` at `.get`. -/
def validate_ad (ad : Json) : Except PyErr Dict :=
  match ad with
  | .obj kvs => do
      let t ← pySlice (dictGetD kvs kTitulo (.str [])) (CHAR_LIMITS kTitulo)
      let de ← pySlice (dictGetD kvs kDescricao (.str [])) (CHAR_LIMITS kDescricao)
      let c ← pySlice (dictGetD kvs kCta (.str [])) (CHAR_LIMITS kCta)
      let ip ← pySlice (dictGetD kvs kImagePrompt (.str [])) 200
      .ok [(kTitulo, .str t), (kDescricao, .str de), (kCta, .str c), (kImagePrompt, .str ip)]
  | other => .error (.attributeError (noGetMsg (jTypeName other)))

/-- The `for ad in ads` loop of `validate_and_truncate_ads`: validate each
element in order, propagating the first exception. -/
def validateList : List Json → Except PyErr (List Dict)
  | [] => .ok []
  | a :: rest => do
      let d ← validate_ad a
      let ds ← validateList rest
      .ok (d :: ds)

/-- `validate_and_truncate_ads(ads)` (`app.py` lines 62-75) applied to the
value returned by `json.loads`: iterating a JSON array visits its elements,
iterating an object visits its keys (as strings), iterating a string visits
its one-character substrings, and any other value raises `TypeError`. -/
def validate_and_truncate_ads (ads : Json) : Except PyErr (List Dict) :=
  match ads with
  | .arr xs => validateList xs
  | .obj kvs => validateList (kvs.map (fun kv => Json.str kv.1))
  | .str s => validateList (s.map (fun c => Json.str [c]))
  | other => .error (.typeError (notIterableMsg (jTypeName other)))

/-- Python truthiness of a JSON-like value (`if image_prompt:` etc.). A
number is truthy when nonzero: its lexeme has a nonzero digit before any
exponent marker, or is `NaN`/`Infinity`. -/
def pyTruthy : Json → Bool
  | .null => false
  | .bool b => b
  | .num lex =>
      (lex.takeWhile (fun c => !(decide (c = 'e') || decide (c = 'E')))).any
        (fun c => decide ('1' ≤ c) && decide (c ≤ '9'))
      || lex.any (fun c => decide (c = 'N') || decide (c = 'I'))
  | .str s => !s.isEmpty
  | .arr l => !l.isEmpty
  | .obj l => !l.isEmpty

/-- Text content of a JSON string value (the ad-draft fields the
orchestrator passes onward are always strings after validation). -/
def jStr : Json → Str
  | .str s => s
  | _ => []

/-- Full DALL-E prompt built by `generate_image_with_dalle`
(`app.py` lines 91-96): optional `", <style> style"` suffix, then the fixed
advertising wrapper. -/
def mk_full_prompt (prompt style : Str) : Str :=
  let fp := if style.isEmpty then prompt else prompt ++ ", ".data ++ style ++ " style".data
  "Create a professional advertising image: ".data ++ fp
    ++ ". High quality, suitable for social media ads, no text overlay.".data

/-- `generate_image_with_dalle(prompt, style)` (`app.py` lines 78-110): call
the image API with the full prompt; any exception is caught and converted to
`None` (the `try`/`except Exception` wraps the whole body). -/
def generate_image_with_dalle (imagesGenerate : Str → Except Str Str)
    (prompt style : Str) : Option Str :=
  match imagesGenerate (mk_full_prompt prompt style) with
  | .ok url => some url
  | .error _ => none

/-- JSON whitespace characters (exactly the four Python's `json` skips). -/
def jsonWs : Char → Bool
  | ' ' | '\t' | '\n' | '\r' => true
  | _ => false

/-- Skip JSON whitespace. -/
def skipWs (s : Str) : Str := s.dropWhile jsonWs

/-- ASCII decimal digit test. -/
def isDigitCh (c : Char) : Bool := decide ('0' ≤ c) && decide (c ≤ '9')

/-- Hex digit value, if any. -/
def hexVal (c : Char) : Option Nat :=
  if decide ('0' ≤ c) && decide (c ≤ '9') then some (c.toNat - '0'.toNat)
  else if decide ('a' ≤ c) && decide (c ≤ 'f') then some (c.toNat - 'a'.toNat + 10)
  else if decide ('A' ≤ c) && decide (c ≤ 'F') then some (c.toNat - 'A'.toNat + 10)
  else none

/-- Body of a JSON string after the opening quote: returns the decoded
characters and the rest of the input past the closing quote. Escapes are
decoded as in Python's `json` module (a `\\u` surrogate outside the `Char`
range decodes to a placeholder; the decoded text of such strings is never
needed by a claim). -/
def jstringRest : Nat → Str → Except Str (Str × Str)
  | 0, _ => .error "Unterminated string".data
  | _ + 1, [] => .error "Unterminated string".data
  | fuel + 1, c :: rest =>
    if c = '"' then .ok ([], rest)
    else if c = '\\' then
      match rest with
      | [] => .error "Unterminated string".data
      | e :: rest2 =>
        if e = 'u' then
          match rest2 with
          | h1 :: h2 :: h3 :: h4 :: rest3 =>
            match hexVal h1, hexVal h2, hexVal h3, hexVal h4 with
            | some a, some b, some c2, some d2 =>
                match jstringRest fuel rest3 with
                | .ok (tail, rem) =>
                    .ok (Char.ofNat (((a * 16 + b) * 16 + c2) * 16 + d2) :: tail, rem)
                | .error m => .error m
            | _, _, _, _ => .error "Invalid unicode escape".data
          | _ => .error "Invalid unicode escape".data
        else
          match
            (if e = '"' then some '"' else if e = '\\' then some '\\'
             else if e = '/' then some '/' else if e = 'b' then some '\x08'
             else if e = 'f' then some '\x0c' else if e = 'n' then some '\n'
             else if e = 'r' then some '\r' else if e = 't' then some '\t'
             else none) with
          | some d =>
              match jstringRest fuel rest2 with
              | .ok (tail, rem) => .ok (d :: tail, rem)
              | .error m => .error m
          | none => .error "Invalid escape".data
    else
      match jstringRest fuel rest with
      | .ok (tail, rem) => .ok (c :: tail, rem)
      | .error m => .error m

/-- Lexeme of a JSON number starting at `s` (sign already consumed by the
caller): integer part, optional fraction, optional exponent. Deliberately
permissive about leading zeros (Python rejects them; accepting more inputs
here only narrows the set of inputs the parse-failure theorems speak about,
it never lets a theorem claim a parse failure Python would not raise). -/
def jnumberBody (s : Str) : Option (Str × Str) :=
  let ds := s.takeWhile isDigitCh
  let r1 := s.dropWhile isDigitCh
  if ds.isEmpty then none
  else
    let fr :=
      match r1 with
      | '.' :: r =>
          let fs := r.takeWhile isDigitCh
          if fs.isEmpty then ([], r1) else ('.' :: fs, r.dropWhile isDigitCh)
      | _ => ([], r1)
    let ex :=
      match fr.2 with
      | 'e' :: '+' :: r =>
          let es := r.takeWhile isDigitCh
          if es.isEmpty then ([], fr.2) else ('e' :: '+' :: es, r.dropWhile isDigitCh)
      | 'e' :: '-' :: r =>
          let es := r.takeWhile isDigitCh
          if es.isEmpty then ([], fr.2) else ('e' :: '-' :: es, r.dropWhile isDigitCh)
      | 'e' :: r =>
          let es := r.takeWhile isDigitCh
          if es.isEmpty then ([], fr.2) else ('e' :: es, r.dropWhile isDigitCh)
      | 'E' :: '+' :: r =>
          let es := r.takeWhile isDigitCh
          if es.isEmpty then ([], fr.2) else ('E' :: '+' :: es, r.dropWhile isDigitCh)
      | 'E' :: '-' :: r =>
          let es := r.takeWhile isDigitCh
          if es.isEmpty then ([], fr.2) else ('E' :: '-' :: es, r.dropWhile isDigitCh)
      | 'E' :: r =>
          let es := r.takeWhile isDigitCh
          if es.isEmpty then ([], fr.2) else ('E' :: es, r.dropWhile isDigitCh)
      | _ => ([], fr.2)
    some (ds ++ fr.1 ++ ex.1, ex.2)

mutual

/-- One JSON value at the head of the input (leading whitespace already
skipped); returns the value and the rest. -/
def jvalue : Nat → Str → Except Str (Json × Str)
  | 0, _ => .error "Out of fuel".data
  | fuel + 1, s =>
    match s with
    | 'n' :: 'u' :: 'l' :: 'l' :: r => .ok (.null, r)
    | 't' :: 'r' :: 'u' :: 'e' :: r => .ok (.bool true, r)
    | 'f' :: 'a' :: 'l' :: 's' :: 'e' :: r => .ok (.bool false, r)
    | 'N' :: 'a' :: 'N' :: r => .ok (.num "NaN".data, r)
    | 'I' :: 'n' :: 'f' :: 'i' :: 'n' :: 'i' :: 't' :: 'y' :: r =>
        .ok (.num "Infinity".data, r)
    | '-' :: 'I' :: 'n' :: 'f' :: 'i' :: 'n' :: 'i' :: 't' :: 'y' :: r =>
        .ok (.num "-Infinity".data, r)
    | '"' :: r =>
        match jstringRest (r.length + 1) r with
        | .ok (cs, rem) => .ok (.str cs, rem)
        | .error m => .error m
    | '[' :: r => jarrayRest fuel (skipWs r)
    | '{' :: r => jobjectRest fuel (skipWs r)
    | '-' :: r =>
        match jnumberBody r with
        | some (lex, rem) => .ok (.num ('-' :: lex), rem)
        | none => .error "Expecting value".data
    | other =>
        match jnumberBody other with
        | some (lex, rem) => .ok (.num lex, rem)
        | none => .error "Expecting value".data

/-- Elements of a JSON array after `[` and whitespace. -/
def jarrayRest : Nat → Str → Except Str (Json × Str)
  | 0, _ => .error "Out of fuel".data
  | fuel + 1, s =>
    match s with
    | ']' :: r => .ok (.arr [], r)
    | _ => jarrayItems fuel s []

/-- Comma-separated array elements (at least one value expected). -/
def jarrayItems : Nat → Str → List Json → Except Str (Json × Str)
  | 0, _, _ => .error "Out of fuel".data
  | fuel + 1, s, acc =>
    match jvalue fuel s with
    | .error m => .error m
    | .ok (v, rem) =>
      match skipWs rem with
      | ',' :: r => jarrayItems fuel (skipWs r) (acc ++ [v])
      | ']' :: r => .ok (.arr (acc ++ [v]), r)
      | _ => .error "Expecting comma delimiter".data

/-- Members of a JSON object after `{` and whitespace. -/
def jobjectRest : Nat → Str → Except Str (Json × Str)
  | 0, _ => .error "Out of fuel".data
  | fuel + 1, s =>
    match s with
    | '}' :: r => .ok (.obj [], r)
    | _ => jobjectItems fuel s []

/-- Comma-separated object members: a later duplicate key overwrites the
earlier value in place, as Python dicts do. -/
def jobjectItems : Nat → Str → Dict → Except Str (Json × Str)
  | 0, _, _ => .error "Out of fuel".data
  | fuel + 1, s, acc =>
    match s with
    | '"' :: r =>
      match jstringRest (r.length + 1) r with
      | .error m => .error m
      | .ok (key, rem) =>
        match skipWs rem with
        | ':' :: r2 =>
          match jvalue fuel (skipWs r2) with
          | .error m => .error m
          | .ok (v, rem2) =>
            match skipWs rem2 with
            | ',' :: r3 => jobjectItems fuel (skipWs r3) (dictSet acc key v)
            | '}' :: r3 => .ok (.obj (dictSet acc key v), r3)
            | _ => .error "Expecting comma delimiter".data
        | _ => .error "Expecting colon delimiter".data
    | _ => .error "Expecting property name".data

end

/-- Model of `json.loads`: parse one value, then require only whitespace to
remain. The fuel bound exceeds the number of parser steps any input can
take, so it is never the reason a parse fails. -/
def json_loads (s : Str) : Except Str Json :=
  match jvalue (s.length * 16 + 16) (skipWs s) with
  | .error m => .error m
  | .ok (v, rem) => if (skipWs rem).isEmpty then .ok v else .error "Extra data".data

/-- The fence marker `"```"`. -/
def fenceMark : Str := "```".data

/-- The fence marker `"```json"`. -/
def fenceJsonMark : Str := "```json".data

/-- Markdown-fence stripping of `generate_ads_with_openai`
(`app.py` lines 151-161): strip, drop a leading ```` ```json ```` (7 chars)
or ```` ``` ```` (3 chars), drop a trailing ```` ``` ````, strip again. The
two leading checks are sequential `if`s, exactly as in the source. -/
def strip_markdown (content : Str) : Str :=
  let t0 := pyStrip content
  let t1 := if pyStartsWith t0 fenceJsonMark then t0.drop 7 else t0
  let t2 := if pyStartsWith t1 fenceMark then t1.drop 3 else t1
  let t3 := if pyEndsWith t2 fenceMark then t2.take (t2.length - 3) else t2
  pyStrip t3

/-- Failures `generate_ads_with_openai` re-raises: `ValueError` for a JSON
decode error, generic `Exception` for anything else in the `try` block. -/
inductive CopyErr where
  | valueError (msg : Str)
  | exception (msg : Str)
deriving DecidableEq

/-- Prefix of the re-raised `ValueError` message (`app.py` line 168). -/
def msgParseErr : Str := "Erro ao processar resposta da IA: ".data

/-- Prefix of the re-raised generic `Exception` message (`app.py` line 170). -/
def msgCommErr : Str := "Erro na comunicação com a API: ".data

/-- `generate_ads_with_openai` (`app.py` lines 113-170), with the chat
completion modelled as an oracle `chat : Except Str Str` (communication
failure, or the raw `response.choices[0].message.content`): strip markdown
fences, `json.loads`, validate/truncate; a `JSONDecodeError` becomes a
`ValueError` with the parse detail, any other failure a generic
`Exception`. -/
def generate_ads_with_openai (chat : Except Str Str) : Except CopyErr (List Dict) :=
  match chat with
  | .error e => .error (.exception (msgCommErr ++ e))
  | .ok content =>
    match json_loads (strip_markdown content) with
    | .error e => .error (.valueError (msgParseErr ++ e))
    | .ok ads =>
      match validate_and_truncate_ads ads with
      | .error pe => .error (.exception (msgCommErr ++ pe.text))
      | .ok v => .ok v

/-- Attach an image-call result as a dict value: a URL string, or `None`. -/
def optUrlToJson : Option Str → Json
  | some u => .str u
  | none => .null

/-- Body of the `generate_images` loop (`app.py` lines 226-235): read
`ad.get("image_prompt", "")`; if truthy call DALL-E with it and the visual
style and store the result as `image_url`, else store `None`; then
`del ad["image_prompt"]` (unconditional, raises `KeyError` if absent). -/
def process_ad_images (imagesGenerate : Str → Except Str Str) (estilo : Str)
    (ad : Dict) : Except PyErr Dict :=
  let ip := dictGetD ad kImagePrompt (.str [])
  let ad1 :=
    if pyTruthy ip then
      dictSet ad kImageUrl (optUrlToJson (generate_image_with_dalle imagesGenerate (jStr ip) estilo))
    else
      dictSet ad kImageUrl .null
  if dictHasKey ad1 kImagePrompt then .ok (dictRemove ad1 kImagePrompt)
  else .error (.keyError (keyErrorMsg kImagePrompt))

/-- The `for ad in ads` loop with `generate_images` enabled: process drafts
in order, propagating the first exception. -/
def processImages (imagesGenerate : Str → Except Str Str) (estilo : Str) :
    List Dict → Except PyErr (List Dict)
  | [] => .ok []
  | a :: rest => do
      let r ← process_ad_images imagesGenerate estilo a
      let rs ← processImages imagesGenerate estilo rest
      .ok (r :: rs)

/-- Body of the `generate_images`-disabled loop (`app.py` lines 238-241):
delete `image_prompt` only if present, then set `image_url` to `None`. -/
def process_ad_no_images (ad : Dict) : Dict :=
  let ad1 := if dictHasKey ad kImagePrompt then dictRemove ad kImagePrompt else ad
  dictSet ad1 kImageUrl .null

/-- Request body of `POST /generate_ads`: the five fields the endpoint
reads, each `none` when the key is absent. `generate_images` keeps its raw
JSON value because the endpoint only tests its truthiness. -/
structure ReqData where
  oferta : Option Str
  cliente : Option Str
  nicho : Option Str
  estilo_visual : Option Str
  generate_images : Option Json

/-- HTTP response of the endpoint: status code plus the JSON body fields
(`success` always, exactly one of `error`/`data`). -/
structure ApiResponse where
  status : Nat
  success : Bool
  error : Option Str
  data : Option (List Dict)

/-- Error message for a missing API key (`app.py` line 193). -/
def msgNoApiKey : Str := "API Key da OpenAI não configurada. Verifique o arquivo .env".data

/-- Error message for an empty request body (`app.py` line 201). -/
def msgNoData : Str := "Nenhum dado enviado na requisição".data

/-- Error message for a missing `oferta` (`app.py` line 214). -/
def msgOfertaReq : Str := "O campo \x27oferta\x27 é obrigatório".data

/-- Error message for a missing `cliente` (`app.py` line 216). -/
def msgClienteReq : Str := "O campo \x27cliente\x27 é obrigatório".data

/-- Error message for a missing `nicho` (`app.py` line 218). -/
def msgNichoReq : Str := "O campo \x27nicho\x27 é obrigatório".data

/-- The `POST /generate_ads` handler `generate_ads` (`app.py` lines
173-251). `hasKey` is whether `OPENAI_API_KEY` is set, `body` the parsed
request JSON (`none` when `request.get_json()` is falsy), `chat` and
`imagesGenerate` the two upstream oracles. Statuses: 500 missing key, 400
missing body or required field, 422 for the copy stage's `ValueError`, 500
for any other exception in the `try` block, else 200 with the ad list. -/
def generate_ads (hasKey : Bool) (body : Option ReqData) (chat : Except Str Str)
    (imagesGenerate : Str → Except Str Str) : ApiResponse :=
  if hasKey = false then ⟨500, false, some msgNoApiKey, none⟩
  else
    match body with
    | none => ⟨400, false, some msgNoData, none⟩
    | some d =>
      let oferta := pyStrip (d.oferta.getD [])
      let cliente := pyStrip (d.cliente.getD [])
      let nicho := pyStrip (d.nicho.getD [])
      let estilo_visual := pyStrip (d.estilo_visual.getD [])
      let genImages := d.generate_images.getD (.bool true)
      if oferta.isEmpty then ⟨400, false, some msgOfertaReq, none⟩
      else if cliente.isEmpty then ⟨400, false, some msgClienteReq, none⟩
      else if nicho.isEmpty then ⟨400, false, some msgNichoReq, none⟩
      else
        match generate_ads_with_openai chat with
        | .error (.valueError m) => ⟨422, false, some m, none⟩
        | .error (.exception m) => ⟨500, false, some m, none⟩
        | .ok ads =>
          if pyTruthy genImages then
            match processImages imagesGenerate estilo_visual ads with
            | .ok res => ⟨200, true, none, some res⟩
            | .error pe => ⟨500, false, some pe.text, none⟩
          else
            ⟨200, true, none, some (ads.map process_ad_no_images)⟩

/-- One ad field is well-shaped when absent or text. -/
def goodKey (kvs : Dict) (k : Str) : Bool :=
  match dictGet kvs k with
  | none => true
  | some (.str _) => true
  | some _ => false

/-- An ad object as the claims quantify over: a JSON object whose four ad
fields, when present, hold text. -/
def goodAd : Json → Bool
  | .obj kvs =>
      goodKey kvs kTitulo && goodKey kvs kDescricao && goodKey kvs kCta
        && goodKey kvs kImagePrompt
  | _ => false

/-- Example request with all required fields present. -/
def reqFull : ReqData :=
  ⟨some ("Oferta X".data), some ("Cliente Y".data), some ("Nicho Z".data),
   some ("Realista".data), none⟩

/-- Example request missing `cliente`. -/
def reqNoCliente : ReqData :=
  ⟨some ("Oferta X".data), none, some ("Nicho Z".data), none, none⟩

/-- Example request with `generate_images` set to `false`. -/
def reqNoImages : ReqData :=
  ⟨some ("Oferta X".data), some ("Cliente Y".data), some ("Nicho Z".data),
   none, some (.bool false)⟩

/-- Image oracle that always fails. -/
def imgFail : Str → Except Str Str := fun _ => .error ("boom".data)

/-- Image oracle that always returns a URL. -/
def imgOk : Str → Except Str Str := fun _ => .ok ("http://img".data)

/-- Example chat-completion response: one well-formed ad draft. -/
def chatGood : Except Str Str :=
  .ok ("[\x7b\"titulo\": \"T\", \"descricao\": \"D\", \"cta\": \"C\", \"image_prompt\": \"cat\"\x7d]".data)

/-- The validated drafts produced from `chatGood`. -/
def adsGood : List Dict :=
  [[(kTitulo, .str ("T".data)), (kDescricao, .str ("D".data)),
    (kCta, .str ("C".data)), (kImagePrompt, .str ("cat".data))]]

/-- Example validation input: a single ad object with a 50-char `titulo`. -/
def adsInC1 : Json := .arr [.obj [(kTitulo, .str (List.replicate 50 'a'))]]

/-- The validated output of `adsInC1`: the `titulo` truncated to 40. -/
def adsOutC1 : List Dict :=
  [[(kTitulo, .str (List.replicate 40 'a')), (kDescricao, .str []),
    (kCta, .str []), (kImagePrompt, .str [])]]

/-! ### Helper lemmas: `Except` bind, dict operations, key distinctness -/

theorem ebind_ok {ε α β : Type} (a : α) (f : α → Except ε β) :
    (Except.ok a >>= f) = f a := rfl

theorem ebind_err {ε α β : Type} (e : ε) (f : α → Except ε β) :
    ((Except.error e : Except ε α) >>= f) = .error e := rfl

theorem dictGet_set_self (d : Dict) (k : Str) (v : Json) :
    dictGet (dictSet d k v) k = some v := by
  induction d with
  | nil => simp [dictSet, dictGet]
  | cons kv rest ih =>
      by_cases h : kv.1 = k
      · simp [dictSet, dictGet, h]
      · simp [dictSet, dictGet, h, ih]

theorem dictGet_set_ne (d : Dict) (k k' : Str) (v : Json) (h : ¬ (k = k')) :
    dictGet (dictSet d k v) k' = dictGet d k' := by
  induction d with
  | nil => simp [dictSet, dictGet, h]
  | cons kv rest ih =>
      by_cases hkv : kv.1 = k
      · simp [dictSet, dictGet, hkv, h]
      · simp [dictSet, dictGet, hkv, ih]

theorem dictGet_remove_self (d : Dict) (k : Str) :
    dictGet (dictRemove d k) k = none := by
  induction d with
  | nil => simp [dictRemove, dictGet]
  | cons kv rest ih =>
      by_cases h : kv.1 = k
      · simp [dictRemove, h, ih]
      · simp [dictRemove, dictGet, h, ih]

theorem dictGet_remove_ne (d : Dict) (k k' : Str) (h : ¬ (k' = k)) :
    dictGet (dictRemove d k) k' = dictGet d k' := by
  induction d with
  | nil => simp [dictRemove]
  | cons kv rest ih =>
      have hne : ¬ (k = k') := fun he => h he.symm
      by_cases hkv : kv.1 = k
      · simp [dictRemove, dictGet, hkv, hne, ih]
      · by_cases hkv' : kv.1 = k'
        · simp [dictRemove, dictGet, hkv, hkv', h]
        · simp [dictRemove, dictGet, hkv, hkv', ih]

theorem forall2_getElem {α β : Type} {R : α → β → Prop} :
    ∀ {xs : List α} {ys : List β}, List.Forall₂ R xs ys →
      ∀ {i : Nat} {a : α} {b : β}, xs[i]? = some a → ys[i]? = some b → R a b := by
  intro xs ys h
  induction h with
  | nil => intro i a b h1 _; simp at h1
  | cons hR _ ih =>
      intro i a b h1 h2
      cases i with
      | zero =>
          simp at h1 h2
          rw [← h1, ← h2]; exact hR
      | succ n =>
          simp at h1 h2
          exact ih h1 h2

theorem ne_kT_kD : ¬ (kTitulo = kDescricao) := by decide

theorem ne_kT_kC : ¬ (kTitulo = kCta) := by decide

theorem ne_kT_kIP : ¬ (kTitulo = kImagePrompt) := by decide

theorem ne_kT_kU : ¬ (kTitulo = kImageUrl) := by decide

theorem ne_kD_kT : ¬ (kDescricao = kTitulo) := by decide

theorem ne_kD_kC : ¬ (kDescricao = kCta) := by decide

theorem ne_kD_kIP : ¬ (kDescricao = kImagePrompt) := by decide

theorem ne_kD_kU : ¬ (kDescricao = kImageUrl) := by decide

theorem ne_kC_kT : ¬ (kCta = kTitulo) := by decide

theorem ne_kC_kD : ¬ (kCta = kDescricao) := by decide

theorem ne_kC_kIP : ¬ (kCta = kImagePrompt) := by decide

theorem ne_kC_kU : ¬ (kCta = kImageUrl) := by decide

theorem ne_kIP_kT : ¬ (kImagePrompt = kTitulo) := by decide

theorem ne_kIP_kD : ¬ (kImagePrompt = kDescricao) := by decide

theorem ne_kIP_kC : ¬ (kImagePrompt = kCta) := by decide

theorem ne_kIP_kU : ¬ (kImagePrompt = kImageUrl) := by decide

theorem ne_kU_kT : ¬ (kImageUrl = kTitulo) := by decide

theorem ne_kU_kD : ¬ (kImageUrl = kDescricao) := by decide

theorem ne_kU_kC : ¬ (kImageUrl = kCta) := by decide

theorem ne_kU_kIP : ¬ (kImageUrl = kImagePrompt) := by decide

/-! ### Validation lemmas -/

theorem pySlice_ok (v : Json) (n : Nat) (s : Str) (h : pySlice v n = .ok s) :
    ∃ s0, v = .str s0 ∧ s = s0.take n := by
  cases v <;> simp [pySlice] at h
  case str s0 => exact ⟨s0, rfl, h.symm⟩

theorem char_limit_titulo : CHAR_LIMITS kTitulo = 40 := rfl

theorem char_limit_descricao : CHAR_LIMITS kDescricao = 250 := by
  simp [CHAR_LIMITS, ne_kD_kT]

theorem char_limit_cta : CHAR_LIMITS kCta = 20 := by
  simp [CHAR_LIMITS, ne_kC_kT, ne_kC_kD]

theorem validate_ad_obj_ok (kvs d : Dict) (h : validate_ad (.obj kvs) = .ok d) :
    ∃ t de c ip,
      pySlice (dictGetD kvs kTitulo (.str [])) 40 = .ok t ∧
      pySlice (dictGetD kvs kDescricao (.str [])) 250 = .ok de ∧
      pySlice (dictGetD kvs kCta (.str [])) 20 = .ok c ∧
      pySlice (dictGetD kvs kImagePrompt (.str [])) 200 = .ok ip ∧
      d = [(kTitulo, .str t), (kDescricao, .str de), (kCta, .str c),
           (kImagePrompt, .str ip)] := by
  simp only [validate_ad, char_limit_titulo, char_limit_descricao, char_limit_cta] at h
  cases h1 : pySlice (dictGetD kvs kTitulo (.str [])) 40 with
  | error e => rw [h1, ebind_err] at h; simp at h
  | ok t =>
    rw [h1, ebind_ok] at h
    cases h2 : pySlice (dictGetD kvs kDescricao (.str [])) 250 with
    | error e => rw [h2, ebind_err] at h; simp at h
    | ok de =>
      rw [h2, ebind_ok] at h
      cases h3 : pySlice (dictGetD kvs kCta (.str [])) 20 with
      | error e => rw [h3, ebind_err] at h; simp at h
      | ok c =>
        rw [h3, ebind_ok] at h
        cases h4 : pySlice (dictGetD kvs kImagePrompt (.str [])) 200 with
        | error e => rw [h4, ebind_err] at h; simp at h
        | ok ip =>
          rw [h4, ebind_ok] at h
          simp only [Except.ok.injEq] at h
          exact ⟨t, de, c, ip, rfl, rfl, rfl, rfl, h.symm⟩

theorem validate_ad_ok_shape (j : Json) (d : Dict) (h : validate_ad j = .ok d) :
    ∃ t de c ip,
      d = [(kTitulo, .str t), (kDescricao, .str de), (kCta, .str c),
           (kImagePrompt, .str ip)] ∧
      t.length ≤ 40 ∧ de.length ≤ 250 ∧ c.length ≤ 20 ∧ ip.length ≤ 200 := by
  cases j with
  | obj kvs =>
      obtain ⟨t, de, c, ip, p1, p2, p3, p4, hshape⟩ := validate_ad_obj_ok kvs d h
      obtain ⟨s1, _, ht⟩ := pySlice_ok _ _ _ p1
      obtain ⟨s2, _, hde⟩ := pySlice_ok _ _ _ p2
      obtain ⟨s3, _, hc⟩ := pySlice_ok _ _ _ p3
      obtain ⟨s4, _, hip⟩ := pySlice_ok _ _ _ p4
      refine ⟨t, de, c, ip, hshape, ?_, ?_, ?_, ?_⟩
      · rw [ht, List.length_take]; exact min_le_left _ _
      · rw [hde, List.length_take]; exact min_le_left _ _
      · rw [hc, List.length_take]; exact min_le_left _ _
      · rw [hip, List.length_take]; exact min_le_left _ _
  | null => simp [validate_ad] at h
  | bool b => simp [validate_ad] at h
  | num lex => simp [validate_ad] at h
  | str s => simp [validate_ad] at h
  | arr xs => simp [validate_ad] at h

theorem validateList_forall2 (xs : List Json) (res : List Dict)
    (h : validateList xs = .ok res) :
    List.Forall₂ (fun j d => validate_ad j = .ok d) xs res := by
  induction xs generalizing res with
  | nil =>
      simp only [validateList, Except.ok.injEq] at h
      rw [← h]; exact .nil
  | cons a rest ih =>
      simp only [validateList] at h
      cases h1 : validate_ad a with
      | error e => rw [h1, ebind_err] at h; simp at h
      | ok d0 =>
        rw [h1, ebind_ok] at h
        cases h2 : validateList rest with
        | error e => rw [h2, ebind_err] at h; simp at h
        | ok ds =>
          rw [h2, ebind_ok] at h
          simp only [Except.ok.injEq] at h
          rw [← h]
          exact .cons h1 (ih ds h2)

theorem forall2_mem_right {α β : Type} {R : α → β → Prop} {xs : List α}
    {ys : List β} (h : List.Forall₂ R xs ys) {b : β} (hb : b ∈ ys) :
    ∃ a, a ∈ xs ∧ R a b := by
  induction h with
  | nil => simp at hb
  | cons hR _ ih =>
      rcases List.mem_cons.mp hb with he | hb'
      · exact ⟨_, by simp, he ▸ hR⟩
      · obtain ⟨a, ha, hab⟩ := ih hb'
        exact ⟨a, by simp [ha], hab⟩

theorem validate_ok_mem (ads : Json) (res : List Dict)
    (h : validate_and_truncate_ads ads = .ok res) (d : Dict) (hd : d ∈ res) :
    ∃ j, validate_ad j = .ok d := by
  cases ads with
  | arr xs =>
      simp only [validate_and_truncate_ads] at h
      obtain ⟨j, _, hj⟩ := forall2_mem_right (validateList_forall2 _ _ h) hd
      exact ⟨j, hj⟩
  | obj kvs =>
      simp only [validate_and_truncate_ads] at h
      obtain ⟨j, _, hj⟩ := forall2_mem_right (validateList_forall2 _ _ h) hd
      exact ⟨j, hj⟩
  | str s =>
      simp only [validate_and_truncate_ads] at h
      obtain ⟨j, _, hj⟩ := forall2_mem_right (validateList_forall2 _ _ h) hd
      exact ⟨j, hj⟩
  | null => simp [validate_and_truncate_ads] at h
  | bool b => simp [validate_and_truncate_ads] at h
  | num lex => simp [validate_and_truncate_ads] at h

/-! ### Claim theorems C1 and C2 -/

/-- C1: every object returned by `validate_and_truncate_ads` has `titulo`
of length ≤ 40, `descricao` ≤ 250, `cta` ≤ 20 and `image_prompt` ≤ 200,
regardless of the lengths of the input values. -/
theorem validate_truncates_all_fields (ads : Json) (res : List Dict)
    (h : validate_and_truncate_ads ads = .ok res) :
    ∀ d ∈ res, ∃ t de c ip,
      dictGet d kTitulo = some (.str t) ∧ t.length ≤ 40 ∧
      dictGet d kDescricao = some (.str de) ∧ de.length ≤ 250 ∧
      dictGet d kCta = some (.str c) ∧ c.length ≤ 20 ∧
      dictGet d kImagePrompt = some (.str ip) ∧ ip.length ≤ 200 := by
  intro d hd
  obtain ⟨j, hj⟩ := validate_ok_mem ads res h d hd
  obtain ⟨t, de, c, ip, hshape, h1, h2, h3, h4⟩ := validate_ad_ok_shape j d hj
  subst hshape
  refine ⟨t, de, c, ip, ?_, h1, ?_, h2, ?_, h3, ?_, h4⟩ <;>
    simp [dictGet, ne_kT_kD, ne_kT_kC, ne_kT_kIP, ne_kD_kC, ne_kD_kIP, ne_kC_kIP]

/-- C2: an input ad object missing one of the keys `titulo`, `descricao`,
`cta` or `image_prompt` yields a validated object in which that field is
present and equal to the empty string. -/
theorem missing_keys_become_empty (xs : List Json) (res : List Dict) (i : Nat)
    (kvs d : Dict)
    (h : validate_and_truncate_ads (.arr xs) = .ok res)
    (hx : xs[i]? = some (.obj kvs)) (hr : res[i]? = some d) :
    (dictGet kvs kTitulo = none → dictGet d kTitulo = some (.str [])) ∧
    (dictGet kvs kDescricao = none → dictGet d kDescricao = some (.str [])) ∧
    (dictGet kvs kCta = none → dictGet d kCta = some (.str [])) ∧
    (dictGet kvs kImagePrompt = none → dictGet d kImagePrompt = some (.str [])) := by
  simp only [validate_and_truncate_ads] at h
  have hv : validate_ad (.obj kvs) = .ok d :=
    forall2_getElem (validateList_forall2 xs res h) hx hr
  obtain ⟨t, de, c, ip, p1, p2, p3, p4, hshape⟩ := validate_ad_obj_ok kvs d hv
  subst hshape
  refine ⟨?_, ?_, ?_, ?_⟩ <;> intro hnone
  · rw [dictGetD, hnone] at p1
    simp only [Option.getD, pySlice, List.take_nil, Except.ok.injEq] at p1
    rw [← p1]
    simp [dictGet]
  · rw [dictGetD, hnone] at p2
    simp only [Option.getD, pySlice, List.take_nil, Except.ok.injEq] at p2
    rw [← p2]
    simp [dictGet, ne_kT_kD]
  · rw [dictGetD, hnone] at p3
    simp only [Option.getD, pySlice, List.take_nil, Except.ok.injEq] at p3
    rw [← p3]
    simp [dictGet, ne_kT_kC, ne_kD_kC]
  · rw [dictGetD, hnone] at p4
    simp only [Option.getD, pySlice, List.take_nil, Except.ok.injEq] at p4
    rw [← p4]
    simp [dictGet, ne_kT_kIP, ne_kD_kIP, ne_kC_kIP]

/-! ### No-op validation, idempotence (C9) -/

theorem validate_ad_of_within (kvs : Dict) (t de c ip : Str)
    (h1 : dictGet kvs kTitulo = some (.str t)) (b1 : t.length ≤ 40)
    (h2 : dictGet kvs kDescricao = some (.str de)) (b2 : de.length ≤ 250)
    (h3 : dictGet kvs kCta = some (.str c)) (b3 : c.length ≤ 20)
    (h4 : dictGet kvs kImagePrompt = some (.str ip)) (b4 : ip.length ≤ 200) :
    validate_ad (.obj kvs) =
      .ok [(kTitulo, .str t), (kDescricao, .str de), (kCta, .str c),
           (kImagePrompt, .str ip)] := by
  simp only [validate_ad, char_limit_titulo, char_limit_descricao, char_limit_cta,
    dictGetD, h1, h2, h3, h4, Option.getD, pySlice, ebind_ok]
  rw [List.take_of_length_le b1, List.take_of_length_le b2,
    List.take_of_length_le b3, List.take_of_length_le b4]

theorem validateList_map_obj (res : List Dict)
    (hall : ∀ d ∈ res, validate_ad (.obj d) = .ok d) :
    validateList (res.map Json.obj) = .ok res := by
  induction res with
  | nil => rfl
  | cons d rest ih =>
      simp only [List.map_cons, validateList]
      rw [hall d (by simp), ebind_ok, ih (fun x hx => hall x (by simp [hx])), ebind_ok]

/-- C9: validation is a no-op on in-budget input and is idempotent: an
object whose four fields are present, text-valued and within budget
validates to exactly those values, and re-validating the output of
`validate_and_truncate_ads` returns it unchanged. -/
theorem validation_idempotent :
    (∀ (kvs : Dict) (t de c ip : Str),
       dictGet kvs kTitulo = some (.str t) → t.length ≤ 40 →
       dictGet kvs kDescricao = some (.str de) → de.length ≤ 250 →
       dictGet kvs kCta = some (.str c) → c.length ≤ 20 →
       dictGet kvs kImagePrompt = some (.str ip) → ip.length ≤ 200 →
       validate_ad (.obj kvs) =
         .ok [(kTitulo, .str t), (kDescricao, .str de), (kCta, .str c),
              (kImagePrompt, .str ip)]) ∧
    (∀ (ads : Json) (res : List Dict),
       validate_and_truncate_ads ads = .ok res →
       validate_and_truncate_ads (.arr (res.map Json.obj)) = .ok res) := by
  constructor
  · intro kvs t de c ip h1 b1 h2 b2 h3 b3 h4 b4
    exact validate_ad_of_within kvs t de c ip h1 b1 h2 b2 h3 b3 h4 b4
  · intro ads res h
    simp only [validate_and_truncate_ads]
    apply validateList_map_obj
    intro d hd
    obtain ⟨j, hj⟩ := validate_ok_mem ads res h d hd
    obtain ⟨t, de, c, ip, hshape, b1, b2, b3, b4⟩ := validate_ad_ok_shape j d hj
    subst hshape
    exact validate_ad_of_within _ t de c ip (by simp [dictGet]) b1
      (by simp [dictGet, ne_kT_kD]) b2
      (by simp [dictGet, ne_kT_kC, ne_kD_kC]) b3
      (by simp [dictGet, ne_kT_kIP, ne_kD_kIP, ne_kC_kIP]) b4

/-! ### Shape preservation (C10) -/

theorem goodKey_slice (kvs : Dict) (k : Str) (n : Nat)
    (hg : goodKey kvs k = true) :
    ∃ s, pySlice (dictGetD kvs k (.str [])) n = .ok s := by
  unfold goodKey at hg
  cases hget : dictGet kvs k with
  | none => exact ⟨[], by simp [dictGetD, hget, pySlice]⟩
  | some v =>
      rw [hget] at hg
      cases v <;> simp at hg
      case str s => exact ⟨s.take n, by simp [dictGetD, hget, pySlice]⟩

theorem validate_ad_ok_of_good (j : Json) (hg : goodAd j = true) :
    ∃ d, validate_ad j = .ok d := by
  cases j <;> simp [goodAd] at hg
  case obj kvs =>
    obtain ⟨⟨⟨g1, g2⟩, g3⟩, g4⟩ := hg
    obtain ⟨t, e1⟩ := goodKey_slice kvs kTitulo 40 g1
    obtain ⟨de, e2⟩ := goodKey_slice kvs kDescricao 250 g2
    obtain ⟨c, e3⟩ := goodKey_slice kvs kCta 20 g3
    obtain ⟨ip, e4⟩ := goodKey_slice kvs kImagePrompt 200 g4
    refine ⟨[(kTitulo, .str t), (kDescricao, .str de), (kCta, .str c),
      (kImagePrompt, .str ip)], ?_⟩
    simp only [validate_ad, char_limit_titulo, char_limit_descricao, char_limit_cta]
    rw [e1, ebind_ok, e2, ebind_ok, e3, ebind_ok, e4, ebind_ok]

theorem validateList_ok_of_good (xs : List Json)
    (hall : ∀ j ∈ xs, goodAd j = true) :
    ∃ res, validateList xs = .ok res ∧ res.length = xs.length := by
  induction xs with
  | nil => exact ⟨[], rfl, rfl⟩
  | cons a rest ih =>
      obtain ⟨d, hd⟩ := validate_ad_ok_of_good a (hall a (by simp))
      obtain ⟨res, hres, hlen⟩ := ih (fun x hx => hall x (by simp [hx]))
      refine ⟨d :: res, ?_, by simp [hlen]⟩
      simp only [validateList]
      rw [hd, ebind_ok, hres, ebind_ok]

theorem processImages_forall2 (img : Str → Except Str Str) (estilo : Str)
    (ads res : List Dict) (h : processImages img estilo ads = .ok res) :
    List.Forall₂ (fun a r => process_ad_images img estilo a = .ok r) ads res := by
  induction ads generalizing res with
  | nil =>
      simp only [processImages, Except.ok.injEq] at h
      rw [← h]; exact .nil
  | cons a rest ih =>
      simp only [processImages] at h
      cases h1 : process_ad_images img estilo a with
      | error e => rw [h1, ebind_err] at h; simp at h
      | ok r0 =>
        rw [h1, ebind_ok] at h
        cases h2 : processImages img estilo rest with
        | error e => rw [h2, ebind_err] at h; simp at h
        | ok rs =>
          rw [h2, ebind_ok] at h
          simp only [Except.ok.injEq] at h
          rw [← h]
          exact .cons h1 (ih rs h2)

theorem dict_shape_of_keys (d : Dict)
    (h : dictKeys d = [kTitulo, kDescricao, kCta, kImagePrompt]) :
    ∃ a b c e, d = [(kTitulo, a), (kDescricao, b), (kCta, c), (kImagePrompt, e)] := by
  cases d with
  | nil => simp [dictKeys] at h
  | cons p1 d1 => cases d1 with
    | nil => simp [dictKeys] at h
    | cons p2 d2 => cases d2 with
      | nil => simp [dictKeys] at h
      | cons p3 d3 => cases d3 with
        | nil => simp [dictKeys] at h
        | cons p4 d4 =>
          simp only [dictKeys, List.map_cons, List.cons.injEq] at h
          obtain ⟨e1, e2, e3, e4, e5⟩ := h
          have hd4 : d4 = [] := List.map_eq_nil_iff.mp e5
          subst hd4
          exact ⟨p1.2, p2.2, p3.2, p4.2, by rw [← e1, ← e2, ← e3, ← e4]⟩

theorem process_ad_images_explicit (img : Str → Except Str Str) (estilo : Str)
    (a b c e : Json) :
    process_ad_images img estilo
        [(kTitulo, a), (kDescricao, b), (kCta, c), (kImagePrompt, e)] =
      .ok [(kTitulo, a), (kDescricao, b), (kCta, c),
           (kImageUrl,
             if pyTruthy e then
               optUrlToJson (generate_image_with_dalle img (jStr e) estilo)
             else .null)] := by
  cases htr : pyTruthy e <;>
    simp [process_ad_images, dictGetD, dictGet, dictSet, dictHasKey, dictRemove, htr,
      ne_kT_kIP, ne_kD_kIP, ne_kC_kIP, ne_kT_kU, ne_kD_kU, ne_kC_kU, ne_kIP_kU,
      ne_kU_kIP]

theorem process_ad_no_images_explicit (a b c e : Json) :
    process_ad_no_images
        [(kTitulo, a), (kDescricao, b), (kCta, c), (kImagePrompt, e)] =
      [(kTitulo, a), (kDescricao, b), (kCta, c), (kImageUrl, .null)] := by
  simp [process_ad_no_images, dictHasKey, dictGet, dictRemove, dictSet,
    ne_kT_kIP, ne_kD_kIP, ne_kC_kIP, ne_kT_kU, ne_kD_kU, ne_kC_kU, ne_kIP_kU]

theorem copy_ok_validated (chat : Except Str Str) (ads : List Dict)
    (h : generate_ads_with_openai chat = .ok ads) :
    ∃ jv, validate_and_truncate_ads jv = .ok ads := by
  cases chat with
  | error e => simp [generate_ads_with_openai] at h
  | ok content =>
    simp only [generate_ads_with_openai] at h
    cases hj : json_loads (strip_markdown content) with
    | error e => rw [hj] at h; simp at h
    | ok j =>
      rw [hj] at h
      cases hv : validate_and_truncate_ads j with
      | error pe => simp [hv] at h
      | ok v =>
        simp only [hv, Except.ok.injEq] at h
        exact ⟨j, h ▸ hv⟩

theorem generate_ads_data_shape (hasKey : Bool) (body : Option ReqData)
    (chat : Except Str Str) (img : Str → Except Str Str) (res : List Dict)
    (h : (generate_ads hasKey body chat img).data = some res) :
    ∀ r ∈ res, dictKeys r = [kTitulo, kDescricao, kCta, kImageUrl] := by
  intro r hr
  simp only [generate_ads] at h
  split at h
  · simp at h
  · split at h
    · simp at h
    · next d =>
      split at h
      · simp at h
      · split at h
        · simp at h
        · split at h
          · simp at h
          · split at h
            · simp at h
            · simp at h
            · next ads hok =>
              split at h
              · split at h
                · next res0 heq =>
                  simp only [Option.some.injEq] at h
                  subst h
                  obtain ⟨jv, hjv⟩ := copy_ok_validated chat ads hok
                  obtain ⟨a, ha, har⟩ :=
                    forall2_mem_right (processImages_forall2 _ _ _ _ heq) hr
                  obtain ⟨jd, hjd⟩ := validate_ok_mem jv ads hjv a ha
                  obtain ⟨t, de, c, ip, hshape, _, _, _, _⟩ :=
                    validate_ad_ok_shape jd a hjd
                  subst hshape
                  rw [process_ad_images_explicit] at har
                  simp only [Except.ok.injEq] at har
                  rw [← har]
                  simp [dictKeys]
                · simp at h
              · simp only [Option.some.injEq] at h
                subst h
                obtain ⟨a, ha, hmap⟩ := List.mem_map.mp hr
                obtain ⟨jv, hjv⟩ := copy_ok_validated chat ads hok
                obtain ⟨jd, hjd⟩ := validate_ok_mem jv ads hjv a ha
                obtain ⟨t, de, c, ip, hshape, _, _, _, _⟩ :=
                  validate_ad_ok_shape jd a hjd
                subst hshape
                rw [process_ad_no_images_explicit] at hmap
                rw [← hmap]
                simp [dictKeys]

/-- C10: for any input list of n ad objects, validation returns exactly n
objects in order, each with exactly the keys `titulo`, `descricao`, `cta`,
`image_prompt`; the orchestrator's unconditional `del ad["image_prompt"]`
therefore never fails, and every ad in a successful response has exactly
the keys `titulo`, `descricao`, `cta`, `image_url`. -/
theorem validation_shape_preserved :
    (∀ xs : List Json, (∀ j ∈ xs, goodAd j = true) →
       ∃ res, validate_and_truncate_ads (.arr xs) = .ok res ∧
         res.length = xs.length ∧
         ∀ d ∈ res, dictKeys d = [kTitulo, kDescricao, kCta, kImagePrompt]) ∧
    (∀ (img : Str → Except Str Str) (estilo : Str) (d : Dict),
       dictKeys d = [kTitulo, kDescricao, kCta, kImagePrompt] →
       ∃ r, process_ad_images img estilo d = .ok r ∧
         dictKeys r = [kTitulo, kDescricao, kCta, kImageUrl]) ∧
    (∀ (hasKey : Bool) (body : Option ReqData) (chat : Except Str Str)
       (img : Str → Except Str Str) (res : List Dict),
       (generate_ads hasKey body chat img).data = some res →
       ∀ r ∈ res, dictKeys r = [kTitulo, kDescricao, kCta, kImageUrl]) := by
  refine ⟨?_, ?_, ?_⟩
  · intro xs hall
    obtain ⟨res, hres, hlen⟩ := validateList_ok_of_good xs hall
    have hv : validate_and_truncate_ads (.arr xs) = .ok res := hres
    refine ⟨res, hv, hlen, ?_⟩
    intro d hd
    obtain ⟨j, hj⟩ := validate_ok_mem _ res hv d hd
    obtain ⟨t, de, c, ip, hshape, _, _, _, _⟩ := validate_ad_ok_shape j d hj
    subst hshape
    simp [dictKeys]
  · intro img estilo d hkeys
    obtain ⟨a, b, c, e, hshape⟩ := dict_shape_of_keys d hkeys
    subst hshape
    exact ⟨_, process_ad_images_explicit img estilo a b c e, by simp [dictKeys]⟩
  · exact generate_ads_data_shape

/-! ### Image-stage behavior (C3, C4, C5) -/

theorem process_ad_no_images_obs (a : Dict) :
    dictGet (process_ad_no_images a) kImageUrl = some .null ∧
    dictHasKey (process_ad_no_images a) kImagePrompt = false := by
  constructor
  · simp only [process_ad_no_images]
    exact dictGet_set_self _ _ _
  · simp only [process_ad_no_images, dictHasKey]
    rw [dictGet_set_ne _ _ _ _ ne_kU_kIP]
    split
    · simp [dictGet_remove_self]
    · next hcond =>
        simp only [Bool.not_eq_true, Option.not_isSome, Option.isNone_iff_eq_none] at hcond
        simp [hcond]

theorem process_ad_images_obs (img : Str → Except Str Str) (estilo : Str)
    (a r : Dict) (h : process_ad_images img estilo a = .ok r) :
    (∀ p, dictGet a kImagePrompt = some (.str p) →
       (p ≠ [] → dictGet r kImageUrl =
          some (optUrlToJson (generate_image_with_dalle img p estilo))) ∧
       (p = [] → dictGet r kImageUrl = some .null)) ∧
    dictHasKey r kImagePrompt = false := by
  simp only [process_ad_images] at h
  cases htr : pyTruthy (dictGetD a kImagePrompt (Json.str [])) with
  | true =>
      simp only [htr] at h
      simp only [if_true] at h
      split at h
      · simp only [Except.ok.injEq] at h
        subst h
        constructor
        · intro p hp
          have hgetd : dictGetD a kImagePrompt (.str []) = .str p := by
            simp [dictGetD, hp]
          rw [hgetd] at htr
          constructor
          · intro _
            rw [hgetd, dictGet_remove_ne _ _ _ ne_kU_kIP, dictGet_set_self]
            simp [jStr]
          · intro hp2
            subst hp2
            simp [pyTruthy] at htr
        · simp [dictHasKey, dictGet_remove_self]
      · exact Except.noConfusion h
  | false =>
      simp only [htr] at h
      simp only [Bool.false_eq_true, if_false] at h
      split at h
      · simp only [Except.ok.injEq] at h
        subst h
        constructor
        · intro p hp
          have hgetd : dictGetD a kImagePrompt (.str []) = .str p := by
            simp [dictGetD, hp]
          rw [hgetd] at htr
          constructor
          · intro hp2
            simp [pyTruthy, List.isEmpty_iff, hp2] at htr
          · intro _
            rw [dictGet_remove_ne _ _ _ ne_kU_kIP, dictGet_set_self]
        · simp [dictHasKey, dictGet_remove_self]
      · exact Except.noConfusion h

/-- C3: with `generate_images` set to `false` the endpoint's result does
not depend on the image oracle (the synthesizer is never invoked), and in a
successful response every ad has `image_url = null` and no `image_prompt`
key. -/
theorem no_images_mode_null_urls (hasKey : Bool) (d : ReqData)
    (chat : Except Str Str) (ads : List Dict)
    (hgen : d.generate_images = some (.bool false))
    (_hok : generate_ads_with_openai chat = .ok ads) :
    (∀ img img', generate_ads hasKey (some d) chat img =
       generate_ads hasKey (some d) chat img') ∧
    (∀ (img : Str → Except Str Str) (res : List Dict),
       (generate_ads hasKey (some d) chat img).data = some res →
       ∀ r ∈ res, dictGet r kImageUrl = some .null ∧
         dictHasKey r kImagePrompt = false) := by
  constructor
  · intro img img'
    simp [generate_ads, hgen, pyTruthy]
  · intro img res h r hr
    simp only [generate_ads, hgen, Option.getD, pyTruthy] at h
    split at h
    · simp at h
    · split at h
      · simp at h
      · split at h
        · simp at h
        · split at h
          · simp at h
          · split at h
            · simp at h
            · simp at h
            · next ads' hok' =>
              simp only [Bool.false_eq_true, if_false, Option.some.injEq] at h
              subst h
              obtain ⟨a, _, hmap⟩ := List.mem_map.mp hr
              rw [← hmap]
              exact process_ad_no_images_obs a

/-- C4: with `generate_images` true and a successful copy stage, each
returned ad corresponds in order to a validated draft: a non-empty
`image_prompt` is sent to DALL-E together with the request's visual style
and the result (url or `None`) is attached as `image_url`; an empty prompt
yields `image_url = None` without consulting the oracle; and `image_prompt`
is removed from every returned ad. -/
theorem images_mode_per_draft (hasKey : Bool) (d : ReqData)
    (chat : Except Str Str) (img : Str → Except Str Str) (ads : List Dict)
    (hgen : pyTruthy (d.generate_images.getD (.bool true)) = true)
    (hok : generate_ads_with_openai chat = .ok ads) :
    ∀ res, (generate_ads hasKey (some d) chat img).data = some res →
      List.Forall₂ (fun a r =>
        (∀ p, dictGet a kImagePrompt = some (.str p) →
           (p ≠ [] → dictGet r kImageUrl = some (optUrlToJson
              (generate_image_with_dalle img p
                (pyStrip (d.estilo_visual.getD []))))) ∧
           (p = [] → dictGet r kImageUrl = some .null)) ∧
        dictHasKey r kImagePrompt = false) ads res := by
  intro res h
  simp only [generate_ads, hok, hgen, if_true] at h
  split at h
  · simp at h
  · split at h
    · simp at h
    · split at h
      · simp at h
      · split at h
        · simp at h
        · split at h
          · next res0 heq =>
            simp only [Option.some.injEq] at h
            subst h
            exact List.Forall₂.imp
              (fun a r har => process_ad_images_obs img _ a r har)
              (processImages_forall2 _ _ _ _ heq)
          · simp at h

/-- C5: a failing image call is converted to `None` and never propagates,
and image results are isolated per item: the i-th result of the image loop
is a function of the i-th draft alone. -/
theorem dalle_failure_isolated :
    (∀ (img : Str → Except Str Str) (prompt style e : Str),
       img (mk_full_prompt prompt style) = .error e →
       generate_image_with_dalle img prompt style = none) ∧
    (∀ (img : Str → Except Str Str) (estilo : Str) (ads res : List Dict),
       processImages img estilo ads = .ok res →
       ∀ i : Nat, res[i]? = (ads[i]?).bind
         (fun a => (process_ad_images img estilo a).toOption)) := by
  constructor
  · intro img prompt style e he
    simp [generate_image_with_dalle, he]
  · intro img estilo ads res h i
    induction ads generalizing res i with
    | nil =>
        simp only [processImages, Except.ok.injEq] at h
        rw [← h]
        simp
    | cons a rest ih =>
        simp only [processImages] at h
        cases h1 : process_ad_images img estilo a with
        | error e => rw [h1, ebind_err] at h; simp at h
        | ok r0 =>
          rw [h1, ebind_ok] at h
          cases h2 : processImages img estilo rest with
          | error e => rw [h2, ebind_err] at h; simp at h
          | ok rs =>
            rw [h2, ebind_ok] at h
            simp only [Except.ok.injEq] at h
            rw [← h]
            cases i with
            | zero => simp [h1, Except.toOption]
            | succ n =>
                simp only [List.getElem?_cons_succ]
                exact ih rs h2 n

/-! ### Markdown-fence stripping (C6) -/

theorem if_of_true {α : Type} (b : Bool) (h : b = true) (x y : α) :
    (if b then x else y) = x := by simp [h]

theorem if_of_false {α : Type} (b : Bool) (h : b = false) (x y : α) :
    (if b then x else y) = y := by simp [h]

theorem isPre_append_self (p t : Str) : isPre p (p ++ t) = true := by
  induction p with
  | nil => rfl
  | cons c p ih => simp [isPre, ih]

theorem startsWith_append_self (p t : Str) : pyStartsWith (p ++ t) p = true :=
  isPre_append_self p t

theorem endsWith_append_self (l t : Str) : pyEndsWith (l ++ t) t = true := by
  rw [pyEndsWith, List.reverse_append]
  exact isPre_append_self _ _

theorem dropWhile_cons_of_false {p : Char → Bool} {a : Char} (l : Str)
    (h : p a = false) : List.dropWhile p (a :: l) = a :: l := by
  simp [List.dropWhile_cons, h]

theorem pyStrip_of_ends (a b : Char) (l : Str) (ha : pyIsSpace a = false)
    (hb : pyIsSpace b = false) : pyStrip (a :: l ++ [b]) = a :: l ++ [b] := by
  unfold pyStrip
  rw [show (a :: l) ++ [b] = a :: (l ++ [b]) from rfl]
  rw [dropWhile_cons_of_false _ ha]
  have hrev : (a :: (l ++ [b])).reverse = b :: (l.reverse ++ [a]) := by simp
  rw [hrev, dropWhile_cons_of_false _ hb, ← hrev, List.reverse_reverse]

theorem pyStrip_nl_wrap (a b : Char) (l : Str) (ha : pyIsSpace a = false)
    (hb : pyIsSpace b = false) :
    pyStrip ('\n' :: ((a :: l ++ [b]) ++ ['\n'])) = a :: l ++ [b] := by
  have h1 : List.dropWhile pyIsSpace ('\n' :: ((a :: l ++ [b]) ++ ['\n']))
      = (a :: l ++ [b]) ++ ['\n'] := by
    rw [List.dropWhile_cons]
    rw [if_of_true (pyIsSpace '\n') rfl]
    rw [show (a :: l ++ [b]) ++ ['\n'] = a :: ((l ++ [b]) ++ ['\n']) from by simp]
    exact dropWhile_cons_of_false _ ha
  unfold pyStrip
  rw [h1]
  have h2 : ((a :: l ++ [b]) ++ ['\n']).reverse
      = '\n' :: (b :: (l.reverse ++ [a])) := by simp
  rw [h2, List.dropWhile_cons, if_of_true (pyIsSpace '\n') rfl,
    dropWhile_cons_of_false _ hb]
  simp

theorem drop7_fenceJson (x : Str) : (fenceJsonMark ++ x).drop 7 = x := by
  have h7 : 7 = fenceJsonMark.length := rfl
  rw [h7, List.drop_left]

theorem drop3_fence (x : Str) : (fenceMark ++ x).drop 3 = x := by
  have h3 : 3 = fenceMark.length := rfl
  rw [h3, List.drop_left]

theorem take_sub_fence (u : Str) :
    (u ++ fenceMark).take ((u ++ fenceMark).length - 3) = u := by
  have hlen : (u ++ fenceMark).length - 3 = u.length := by
    simp [List.length_append, fenceMark]
  rw [hlen, List.take_left]

theorem strip_markdown_bracket (mid : Str) :
    strip_markdown ('[' :: mid ++ [']']) = '[' :: mid ++ [']'] := by
  have hsw1 : pyStartsWith ('[' :: mid ++ [']']) fenceJsonMark = false := by
    simp [pyStartsWith, isPre, fenceJsonMark]
  have hsw2 : pyStartsWith ('[' :: mid ++ [']']) fenceMark = false := by
    simp [pyStartsWith, isPre, fenceMark]
  have hend : pyEndsWith ('[' :: mid ++ [']']) fenceMark = false := by
    simp [pyEndsWith, isPre, fenceMark]
  simp only [strip_markdown]
  rw [pyStrip_of_ends '[' ']' mid rfl rfl]
  rw [if_of_false _ hsw1, if_of_false _ hsw2, if_of_false _ hend]
  exact pyStrip_of_ends '[' ']' mid rfl rfl

theorem strip_markdown_fenced_json (mid : Str) :
    strip_markdown (fenceJsonMark ++ ('\n' :: ('[' :: mid ++ [']']))
        ++ ('\n' :: fenceMark))
      = '[' :: mid ++ [']'] := by
  have htot : fenceJsonMark ++ ('\n' :: ('[' :: mid ++ [']'])) ++ ('\n' :: fenceMark)
      = '`' :: ("``json".data ++ ('\n' :: ('[' :: mid ++ [']'])) ++ ['\n', '`', '`'])
          ++ ['`'] := by
    simp [fenceJsonMark, fenceMark]
  have hassoc : fenceJsonMark ++ ('\n' :: ('[' :: mid ++ [']'])) ++ ('\n' :: fenceMark)
      = fenceJsonMark ++ (('\n' :: ('[' :: mid ++ [']'])) ++ ('\n' :: fenceMark)) := by
    simp
  have hsw1 : pyStartsWith
      (fenceJsonMark ++ ('\n' :: ('[' :: mid ++ [']'])) ++ ('\n' :: fenceMark))
      fenceJsonMark = true := by
    rw [hassoc]; exact startsWith_append_self _ _
  have hdrop : (fenceJsonMark ++ ('\n' :: ('[' :: mid ++ [']']))
      ++ ('\n' :: fenceMark)).drop 7
      = ('\n' :: ('[' :: mid ++ [']'])) ++ ('\n' :: fenceMark) := by
    rw [hassoc]; exact drop7_fenceJson _
  have hsw2 : pyStartsWith (('\n' :: ('[' :: mid ++ [']'])) ++ ('\n' :: fenceMark))
      fenceMark = false := by
    simp [pyStartsWith, isPre, fenceMark]
  have hre : ('\n' :: ('[' :: mid ++ [']'])) ++ ('\n' :: fenceMark)
      = (('\n' :: ('[' :: mid ++ [']'])) ++ ['\n']) ++ fenceMark := by simp
  have hend : pyEndsWith (('\n' :: ('[' :: mid ++ [']'])) ++ ('\n' :: fenceMark))
      fenceMark = true := by
    rw [hre]; exact endsWith_append_self _ _
  simp only [strip_markdown]
  rw [htot, pyStrip_of_ends '`' '`' _ rfl rfl, ← htot]
  rw [if_of_true _ hsw1, hdrop, if_of_false _ hsw2, if_of_true _ hend]
  rw [hre, take_sub_fence]
  exact pyStrip_nl_wrap '[' ']' mid rfl rfl

theorem strip_markdown_fenced_plain (mid : Str) :
    strip_markdown (fenceMark ++ ('\n' :: ('[' :: mid ++ [']']))
        ++ ('\n' :: fenceMark))
      = '[' :: mid ++ [']'] := by
  have htot : fenceMark ++ ('\n' :: ('[' :: mid ++ [']'])) ++ ('\n' :: fenceMark)
      = '`' :: ("``".data ++ ('\n' :: ('[' :: mid ++ [']'])) ++ ['\n', '`', '`'])
          ++ ['`'] := by
    simp [fenceMark]
  have hassoc : fenceMark ++ ('\n' :: ('[' :: mid ++ [']'])) ++ ('\n' :: fenceMark)
      = fenceMark ++ (('\n' :: ('[' :: mid ++ [']'])) ++ ('\n' :: fenceMark)) := by
    simp
  have hsw1 : pyStartsWith
      (fenceMark ++ ('\n' :: ('[' :: mid ++ [']'])) ++ ('\n' :: fenceMark))
      fenceJsonMark = false := by
    simp [pyStartsWith, isPre, fenceJsonMark, fenceMark]
  have hsw2 : pyStartsWith
      (fenceMark ++ ('\n' :: ('[' :: mid ++ [']'])) ++ ('\n' :: fenceMark))
      fenceMark = true := by
    rw [hassoc]; exact startsWith_append_self _ _
  have hdrop : (fenceMark ++ ('\n' :: ('[' :: mid ++ [']']))
      ++ ('\n' :: fenceMark)).drop 3
      = ('\n' :: ('[' :: mid ++ [']'])) ++ ('\n' :: fenceMark) := by
    rw [hassoc]; exact drop3_fence _
  have hre : ('\n' :: ('[' :: mid ++ [']'])) ++ ('\n' :: fenceMark)
      = (('\n' :: ('[' :: mid ++ [']'])) ++ ['\n']) ++ fenceMark := by simp
  have hend : pyEndsWith (('\n' :: ('[' :: mid ++ [']'])) ++ ('\n' :: fenceMark))
      fenceMark = true := by
    rw [hre]; exact endsWith_append_self _ _
  simp only [strip_markdown]
  rw [htot, pyStrip_of_ends '`' '`' _ rfl rfl, ← htot]
  rw [if_of_false _ hsw1, if_of_true _ hsw2, hdrop, if_of_true _ hend]
  rw [hre, take_sub_fence]
  exact pyStrip_nl_wrap '[' ']' mid rfl rfl

/-- C6: a well-formed JSON-array payload wrapped in markdown fence markers
(leading ```` ```json ```` or ```` ``` ```` and trailing ```` ``` ````)
is parsed by `generate_ads_with_openai` exactly as the unfenced payload:
the fence markers are stripped before parsing. -/
theorem fenced_payload_equivalent (Q : Str)
    (h1 : pyStartsWith Q ("[".data) = true)
    (h2 : pyEndsWith Q ("]".data) = true) :
    generate_ads_with_openai
        (.ok (fenceJsonMark ++ ('\n' :: Q) ++ ('\n' :: fenceMark)))
      = generate_ads_with_openai (.ok Q) ∧
    generate_ads_with_openai
        (.ok (fenceMark ++ ('\n' :: Q) ++ ('\n' :: fenceMark)))
      = generate_ads_with_openai (.ok Q) := by
  obtain ⟨mid, rfl⟩ : ∃ mid, Q = '[' :: mid ++ [']'] := by
    rw [pyStartsWith] at h1
    cases Q with
    | nil => simp [isPre] at h1
    | cons c q =>
      simp only [isPre, Bool.and_eq_true, decide_eq_true_eq] at h1
      obtain ⟨hc, -⟩ := h1
      subst hc
      rw [pyEndsWith] at h2
      cases hq : q.reverse with
      | nil =>
          rw [show ('[' :: q).reverse = q.reverse ++ ['['] from by simp, hq] at h2
          simp [isPre] at h2
      | cons d w =>
          rw [show ('[' :: q).reverse = q.reverse ++ ['['] from by simp, hq] at h2
          simp only [List.cons_append, isPre, Bool.and_eq_true,
            decide_eq_true_eq] at h2
          obtain ⟨hd, -⟩ := h2
          refine ⟨w.reverse, ?_⟩
          have hqe : q = w.reverse ++ [d] := by
            rw [← List.reverse_reverse q, hq]
            simp
          rw [hqe, ← hd]
          rfl
  constructor
  · simp only [generate_ads_with_openai]
    rw [strip_markdown_fenced_json mid, strip_markdown_bracket mid]
  · simp only [generate_ads_with_openai]
    rw [strip_markdown_fenced_plain mid, strip_markdown_bracket mid]

/-! ### Endpoint error handling (C7, C8) -/

/-- C8: a request body whose `oferta`, `cliente` or `nicho` is missing or
empty after trimming gets a 400 with the field-specific message (checked in
the source's order `oferta`, `cliente`, `nicho`), and neither upstream
oracle influences the result (no upstream call is made). -/
theorem missing_fields_400 (d : ReqData) (chat chat' : Except Str Str)
    (img img' : Str → Except Str Str) :
    (pyStrip (d.oferta.getD []) = [] →
       generate_ads true (some d) chat img = ⟨400, false, some msgOfertaReq, none⟩ ∧
       generate_ads true (some d) chat img = generate_ads true (some d) chat' img') ∧
    (pyStrip (d.oferta.getD []) ≠ [] → pyStrip (d.cliente.getD []) = [] →
       generate_ads true (some d) chat img = ⟨400, false, some msgClienteReq, none⟩ ∧
       generate_ads true (some d) chat img = generate_ads true (some d) chat' img') ∧
    (pyStrip (d.oferta.getD []) ≠ [] → pyStrip (d.cliente.getD []) ≠ [] →
       pyStrip (d.nicho.getD []) = [] →
       generate_ads true (some d) chat img = ⟨400, false, some msgNichoReq, none⟩ ∧
       generate_ads true (some d) chat img = generate_ads true (some d) chat' img') := by
  refine ⟨?_, ?_, ?_⟩
  · intro h1
    constructor <;> simp [generate_ads, h1]
  · intro h1 h2
    constructor <;> simp [generate_ads, List.isEmpty_iff, h1, h2]
  · intro h1 h2 h3
    constructor <;> simp [generate_ads, List.isEmpty_iff, h1, h2, h3]

/-- C7 (amended): an upstream text response that fails JSON parsing yields
422 with the parse detail in `{success: false, error: ...}`; but a response
that parses as JSON and merely has the wrong structure is not rejected at
parse time — an array containing a non-object yields a 500. -/
theorem parse_failure_422 :
    (∀ (d : ReqData) (content e : Str) (img : Str → Except Str Str),
       pyStrip (d.oferta.getD []) ≠ [] →
       pyStrip (d.cliente.getD []) ≠ [] →
       pyStrip (d.nicho.getD []) ≠ [] →
       json_loads (strip_markdown content) = .error e →
       generate_ads true (some d) (.ok content) img =
         ⟨422, false, some (msgParseErr ++ e), none⟩) ∧
    (generate_ads true (some reqFull) (.ok ("[1]".data)) imgOk).status = 500 := by
  constructor
  · intro d content e img h1 h2 h3 hj
    simp [generate_ads, generate_ads_with_openai, hj, List.isEmpty_iff, h1, h2, h3]
  · rfl

/-- C7 counterexample: `[1]` is valid JSON but not an array of objects; the
endpoint returns 500 (a generic upstream-communication failure), not the
422 the claim asserts for structurally invalid JSON. -/
theorem nonarray_json_not_422 :
    (generate_ads true (some reqFull) (.ok ("[1]".data)) imgOk).status = 500 ∧
    (generate_ads true (some reqFull) (.ok ("[1]".data)) imgOk).status ≠ 422 := by
  constructor
  · rfl
  · decide

/-! ### Witnesses -/

theorem validate_truncates_all_fields_witness :
    ∃ t de c ip,
      dictGet [(kTitulo, Json.str (List.replicate 40 'a')), (kDescricao, Json.str []),
        (kCta, Json.str []), (kImagePrompt, Json.str [])] kTitulo
        = some (.str t) ∧ t.length ≤ 40 ∧
      dictGet [(kTitulo, Json.str (List.replicate 40 'a')), (kDescricao, Json.str []),
        (kCta, Json.str []), (kImagePrompt, Json.str [])] kDescricao
        = some (.str de) ∧ de.length ≤ 250 ∧
      dictGet [(kTitulo, Json.str (List.replicate 40 'a')), (kDescricao, Json.str []),
        (kCta, Json.str []), (kImagePrompt, Json.str [])] kCta
        = some (.str c) ∧ c.length ≤ 20 ∧
      dictGet [(kTitulo, Json.str (List.replicate 40 'a')), (kDescricao, Json.str []),
        (kCta, Json.str []), (kImagePrompt, Json.str [])] kImagePrompt
        = some (.str ip) ∧ ip.length ≤ 200 :=
  validate_truncates_all_fields adsInC1 adsOutC1 (by rfl)
    [(kTitulo, Json.str (List.replicate 40 'a')), (kDescricao, Json.str []),
      (kCta, Json.str []), (kImagePrompt, Json.str [])] (by simp [adsOutC1])

theorem missing_keys_become_empty_witness :
    (dictGet [(kTitulo, Json.str ("T".data))] kTitulo = none →
       dictGet [(kTitulo, Json.str ("T".data)), (kDescricao, Json.str []),
         (kCta, Json.str []), (kImagePrompt, Json.str [])] kTitulo
         = some (.str [])) ∧
    (dictGet [(kTitulo, Json.str ("T".data))] kDescricao = none →
       dictGet [(kTitulo, Json.str ("T".data)), (kDescricao, Json.str []),
         (kCta, Json.str []), (kImagePrompt, Json.str [])] kDescricao
         = some (.str [])) ∧
    (dictGet [(kTitulo, Json.str ("T".data))] kCta = none →
       dictGet [(kTitulo, Json.str ("T".data)), (kDescricao, Json.str []),
         (kCta, Json.str []), (kImagePrompt, Json.str [])] kCta
         = some (.str [])) ∧
    (dictGet [(kTitulo, Json.str ("T".data))] kImagePrompt = none →
       dictGet [(kTitulo, Json.str ("T".data)), (kDescricao, Json.str []),
         (kCta, Json.str []), (kImagePrompt, Json.str [])] kImagePrompt
         = some (.str [])) :=
  missing_keys_become_empty [Json.obj [(kTitulo, Json.str ("T".data))]]
    [[(kTitulo, Json.str ("T".data)), (kDescricao, Json.str []),
      (kCta, Json.str []), (kImagePrompt, Json.str [])]] 0
    [(kTitulo, Json.str ("T".data))]
    [(kTitulo, Json.str ("T".data)), (kDescricao, Json.str []),
      (kCta, Json.str []), (kImagePrompt, Json.str [])]
    (by rfl) (by rfl) (by rfl)

theorem no_images_mode_null_urls_witness :
    (generate_ads true (some reqNoImages) chatGood imgFail =
       generate_ads true (some reqNoImages) chatGood imgOk) ∧
    (dictGet [(kTitulo, Json.str ("T".data)), (kDescricao, Json.str ("D".data)),
        (kCta, Json.str ("C".data)), (kImageUrl, Json.null)] kImageUrl
       = some Json.null ∧
     dictHasKey [(kTitulo, Json.str ("T".data)), (kDescricao, Json.str ("D".data)),
        (kCta, Json.str ("C".data)), (kImageUrl, Json.null)] kImagePrompt = false) :=
  ⟨(no_images_mode_null_urls true reqNoImages chatGood adsGood rfl (by rfl)).1
      imgFail imgOk,
   (no_images_mode_null_urls true reqNoImages chatGood adsGood rfl (by rfl)).2
      imgFail
      [[(kTitulo, Json.str ("T".data)), (kDescricao, Json.str ("D".data)),
        (kCta, Json.str ("C".data)), (kImageUrl, Json.null)]] (by rfl)
      [(kTitulo, Json.str ("T".data)), (kDescricao, Json.str ("D".data)),
        (kCta, Json.str ("C".data)), (kImageUrl, Json.null)] (by simp)⟩

theorem images_mode_per_draft_witness :
    List.Forall₂ (fun a r =>
        (∀ p, dictGet a kImagePrompt = some (.str p) →
           (p ≠ [] → dictGet r kImageUrl = some (optUrlToJson
              (generate_image_with_dalle imgOk p
                (pyStrip (reqFull.estilo_visual.getD []))))) ∧
           (p = [] → dictGet r kImageUrl = some .null)) ∧
        dictHasKey r kImagePrompt = false) adsGood
      [[(kTitulo, Json.str ("T".data)), (kDescricao, Json.str ("D".data)),
        (kCta, Json.str ("C".data)), (kImageUrl, Json.str ("http://img".data))]] :=
  images_mode_per_draft true reqFull chatGood imgOk adsGood rfl (by rfl)
    [[(kTitulo, Json.str ("T".data)), (kDescricao, Json.str ("D".data)),
      (kCta, Json.str ("C".data)), (kImageUrl, Json.str ("http://img".data))]]
    (by rfl)

theorem dalle_failure_isolated_witness :
    generate_image_with_dalle imgFail ("cat".data) ("Realista".data) = none ∧
    ([[(kTitulo, Json.str ("T".data)), (kDescricao, Json.str ("D".data)),
       (kCta, Json.str ("C".data)), (kImageUrl, Json.null)]] : List Dict)[0]? =
      (adsGood[0]?).bind
        (fun a => (process_ad_images imgFail [] a).toOption) :=
  ⟨dalle_failure_isolated.1 imgFail ("cat".data) ("Realista".data) ("boom".data) rfl,
   dalle_failure_isolated.2 imgFail [] adsGood
     [[(kTitulo, Json.str ("T".data)), (kDescricao, Json.str ("D".data)),
       (kCta, Json.str ("C".data)), (kImageUrl, Json.null)]] (by rfl) 0⟩

theorem fenced_payload_equivalent_witness :
    generate_ads_with_openai
        (.ok (fenceJsonMark ++ ('\n' :: ("[]".data)) ++ ('\n' :: fenceMark)))
      = generate_ads_with_openai (.ok ("[]".data)) ∧
    generate_ads_with_openai
        (.ok (fenceMark ++ ('\n' :: ("[]".data)) ++ ('\n' :: fenceMark)))
      = generate_ads_with_openai (.ok ("[]".data)) :=
  fenced_payload_equivalent ("[]".data) (by rfl) (by rfl)

theorem parse_failure_422_witness :
    generate_ads true (some reqFull) (.ok ("oops".data)) imgOk =
      ⟨422, false, some (msgParseErr ++ ("Expecting value".data)), none⟩ :=
  parse_failure_422.1 reqFull ("oops".data) ("Expecting value".data) imgOk
    (by decide) (by decide) (by decide) (by rfl)

theorem missing_fields_400_witness :
    generate_ads true (some reqNoCliente) chatGood imgOk =
      ⟨400, false, some msgClienteReq, none⟩ :=
  ((missing_fields_400 reqNoCliente chatGood chatGood imgOk imgOk).2.1
    (by decide) (by rfl)).1

theorem validation_idempotent_witness :
    validate_and_truncate_ads (.arr (adsGood.map Json.obj)) = .ok adsGood :=
  validation_idempotent.2 (.arr (adsGood.map Json.obj)) adsGood (by rfl)

theorem validation_shape_preserved_witness :
    ∃ res, validate_and_truncate_ads
        (.arr [Json.obj [(kTitulo, Json.str ("T".data))]]) = .ok res ∧
      res.length = [Json.obj [(kTitulo, Json.str ("T".data))]].length ∧
      ∀ d ∈ res, dictKeys d = [kTitulo, kDescricao, kCta, kImagePrompt] :=
  validation_shape_preserved.1 [Json.obj [(kTitulo, Json.str ("T".data))]]
    (by decide)
